import Mathlib

/-!
Shallow embedding of the BitFrost revenue engine from `src/app/page.tsx`.
Numeric values are modelled as exact rationals; all engine code is pure
arithmetic on plain JavaScript numbers with no rounding-sensitive branch,
so the rational model mirrors the formulas literally.
-/

namespace BitFrost

/-- ScenarioParams: the thirteen numeric inputs of the engine
(`interface ScenarioParams`, src/app/page.tsx lines 12-26). -/
structure ScenarioParams where
  dailyVolume : ℚ
  internalMatchRatio : ℚ
  clearingFee : ℚ
  nettingFee : ℚ
  hlFundingRate : ℚ
  archBorrowRate : ℚ
  frictionCost : ℚ
  equity : ℚ
  leverage : ℚ
  monthlyLiquidations : ℚ
  liquidationFee : ℚ
  dailyHedge : ℚ
  hedgeEfficiency : ℚ
deriving DecidableEq

/-- RevenueResult: the derived output record
(`interface RevenueResult`, src/app/page.tsx lines 28-41). -/
structure RevenueResult where
  total : ℚ
  clearing : ℚ
  funding : ℚ
  liquidations : ℚ
  hedging : ℚ
  monthlyAvg : ℚ
  dailyAvg : ℚ
  fundingSpread : ℚ
  deployedNotional : ℚ
  fundingROE : ℚ
  clearingDaily : ℚ
  hedgeDaily : ℚ
deriving DecidableEq

/-- Constant DAYS_PER_YEAR (src/app/page.tsx line 44). -/
def DAYS_PER_YEAR : ℚ := 365

/-- Constant MONTHS_PER_YEAR (src/app/page.tsx line 45). -/
def MONTHS_PER_YEAR : ℚ := 12

/-- Constant BPS_PER_UNIT (src/app/page.tsx line 46). -/
def BPS_PER_UNIT : ℚ := 10000

/-- RevenueCalculator.calculate (src/app/page.tsx lines 99-137),
transcribed with the same intermediate bindings. -/
def calculate (params : ScenarioParams) : RevenueResult :=
  let V_d := params.dailyVolume
  let alpha := params.internalMatchRatio
  let f_c := params.clearingFee / BPS_PER_UNIT
  let f_n := params.nettingFee / BPS_PER_UNIT
  let f_H := params.hlFundingRate / 100
  let r_l := params.archBorrowRate / 100
  let kappa := params.frictionCost / BPS_PER_UNIT
  let E := params.equity
  let L := params.leverage
  let L_m := params.monthlyLiquidations
  let phi := params.liquidationFee / 100
  let H_d := params.dailyHedge
  let eta := params.hedgeEfficiency / BPS_PER_UNIT
  let R_clear := DAYS_PER_YEAR * V_d * alpha * (f_c + f_n)
  let s := f_H - r_l - kappa
  let N := L * E
  let R_funding := s * N
  let R_liq := MONTHS_PER_YEAR * L_m * phi
  let R_hedge := DAYS_PER_YEAR * H_d * eta
  let R_total := R_clear + R_funding + R_liq + R_hedge
  { total := R_total
    clearing := R_clear
    funding := R_funding
    liquidations := R_liq
    hedging := R_hedge
    monthlyAvg := R_total / MONTHS_PER_YEAR
    dailyAvg := R_total / DAYS_PER_YEAR
    fundingSpread := s
    deployedNotional := N
    fundingROE := s * L * 100
    clearingDaily := R_clear / DAYS_PER_YEAR
    hedgeDaily := R_hedge / DAYS_PER_YEAR }

/-- MonthlyForecastPoint: element type returned by generateMonthlyForecast
(src/app/page.tsx lines 139-146). -/
structure MonthlyForecastPoint where
  month : ℕ
  clearing : ℚ
  funding : ℚ
  liquidations : ℚ
  hedging : ℚ
  total : ℚ
deriving DecidableEq

/-- RevenueCalculator.generateMonthlyForecast (src/app/page.tsx lines
139-160): calls calculate once then pushes one point per month 1..12. -/
def generateMonthlyForecast (params : ScenarioParams) : List MonthlyForecastPoint :=
  let result := calculate params
  (List.range 12).map fun m =>
    { month := m + 1
      clearing := result.clearing / DAYS_PER_YEAR
      funding := result.funding / DAYS_PER_YEAR
      liquidations := result.liquidations / DAYS_PER_YEAR
      hedging := result.hedging / DAYS_PER_YEAR
      total := result.dailyAvg }

/-- The `bear` preset of the SCENARIOS record (src/app/page.tsx lines 50-64). -/
def bearDefault : ScenarioParams :=
  { dailyVolume := 500000000
    internalMatchRatio := 0.30
    clearingFee := 1.5
    nettingFee := 0.5
    hlFundingRate := 2
    archBorrowRate := 3
    frictionCost := 1.5
    equity := 50000000
    leverage := 2.0
    monthlyLiquidations := 10000000
    liquidationFee := 0.3
    dailyHedge := 50000000
    hedgeEfficiency := 0.2 }

/-- The `base` preset of the SCENARIOS record (src/app/page.tsx lines 65-79). -/
def baseDefault : ScenarioParams :=
  { dailyVolume := 2000000000
    internalMatchRatio := 0.50
    clearingFee := 1.5
    nettingFee := 0.5
    hlFundingRate := 8
    archBorrowRate := 2.5
    frictionCost := 1.2
    equity := 100000000
    leverage := 8.0
    monthlyLiquidations := 50000000
    liquidationFee := 0.4
    dailyHedge := 200000000
    hedgeEfficiency := 0.5 }

/-- The `bull` preset of the SCENARIOS record (src/app/page.tsx lines 80-94). -/
def bullDefault : ScenarioParams :=
  { dailyVolume := 5000000000
    internalMatchRatio := 0.65
    clearingFee := 1.5
    nettingFee := 0.5
    hlFundingRate := 25
    archBorrowRate := 2
    frictionCost := 0.8
    equity := 200000000
    leverage := 12.0
    monthlyLiquidations := 150000000
    liquidationFee := 0.5
    dailyHedge := 500000000
    hedgeEfficiency := 1.0 }

/-- The SCENARIOS record (src/app/page.tsx lines 49-95): a string-keyed
lookup table with exactly the keys bear, base and bull. -/
def SCENARIOS (name : String) : Option ScenarioParams :=
  if name = "bear" then some bearDefault
  else if name = "base" then some baseDefault
  else if name = "bull" then some bullDefault
  else none

/-- Modelled from the spec: the accessor `getScenarioDefaults(name)` of
spec sections 4.1 and 6 is not present in src/app/page.tsx (only the
SCENARIOS record it reads is). Per the spec, it returns the named preset
and an unknown name fails with the error "UnknownScenario". -/
def getScenarioDefaults (name : String) : Except String ScenarioParams :=
  match SCENARIOS name with
  | some p => Except.ok p
  | none => Except.error "UnknownScenario"

/-- Keys of a ScenarioParams record, used to model the field-keyed update
`(prev) => (\x7b ...prev, [key]: value \x7d)` of the application
(src/app/page.tsx lines 556-566). -/
inductive ParamKey where
  | dailyVolume
  | internalMatchRatio
  | clearingFee
  | nettingFee
  | hlFundingRate
  | archBorrowRate
  | frictionCost
  | equity
  | leverage
  | monthlyLiquidations
  | liquidationFee
  | dailyHedge
  | hedgeEfficiency
deriving DecidableEq

/-- Read the field named by a ParamKey. -/
def getParam (p : ScenarioParams) : ParamKey → ℚ
  | ParamKey.dailyVolume => p.dailyVolume
  | ParamKey.internalMatchRatio => p.internalMatchRatio
  | ParamKey.clearingFee => p.clearingFee
  | ParamKey.nettingFee => p.nettingFee
  | ParamKey.hlFundingRate => p.hlFundingRate
  | ParamKey.archBorrowRate => p.archBorrowRate
  | ParamKey.frictionCost => p.frictionCost
  | ParamKey.equity => p.equity
  | ParamKey.leverage => p.leverage
  | ParamKey.monthlyLiquidations => p.monthlyLiquidations
  | ParamKey.liquidationFee => p.liquidationFee
  | ParamKey.dailyHedge => p.dailyHedge
  | ParamKey.hedgeEfficiency => p.hedgeEfficiency

/-- Functional update of the field named by a ParamKey: the embedding of
the spread-copy update `(prev) => (\x7b ...prev, [key]: value \x7d)` used by
the scenario change handlers (src/app/page.tsx lines 556-566). -/
def setParam (p : ScenarioParams) (k : ParamKey) (v : ℚ) : ScenarioParams :=
  match k with
  | ParamKey.dailyVolume => { p with dailyVolume := v }
  | ParamKey.internalMatchRatio => { p with internalMatchRatio := v }
  | ParamKey.clearingFee => { p with clearingFee := v }
  | ParamKey.nettingFee => { p with nettingFee := v }
  | ParamKey.hlFundingRate => { p with hlFundingRate := v }
  | ParamKey.archBorrowRate => { p with archBorrowRate := v }
  | ParamKey.frictionCost => { p with frictionCost := v }
  | ParamKey.equity => { p with equity := v }
  | ParamKey.leverage => { p with leverage := v }
  | ParamKey.monthlyLiquidations => { p with monthlyLiquidations := v }
  | ParamKey.liquidationFee => { p with liquidationFee := v }
  | ParamKey.dailyHedge => { p with dailyHedge := v }
  | ParamKey.hedgeEfficiency => { p with hedgeEfficiency := v }

end BitFrost

namespace BitFrost

/-- C1: for the base-case parameter set, calculate returns
clearing = 73,000,000, fundingSpread = 0.05488,
deployedNotional = 800,000,000, funding = 43,904,000,
liquidations = 2,400,000, hedging = 3,650,000 and total = 122,954,000. -/
theorem calculate_base_case :
    (calculate baseDefault).clearing = 73000000 ∧
    (calculate baseDefault).fundingSpread = 0.05488 ∧
    (calculate baseDefault).deployedNotional = 800000000 ∧
    (calculate baseDefault).funding = 43904000 ∧
    (calculate baseDefault).liquidations = 2400000 ∧
    (calculate baseDefault).hedging = 3650000 ∧
    (calculate baseDefault).total = 122954000 := by
  norm_num [calculate, baseDefault, DAYS_PER_YEAR, MONTHS_PER_YEAR, BPS_PER_UNIT]

/-- C2: for every ScenarioParams, the RevenueResult returned by calculate
satisfies total = clearing + funding + liquidations + hedging. -/
theorem total_eq_sum_of_streams (p : ScenarioParams) :
    (calculate p).total =
      (calculate p).clearing + (calculate p).funding +
        (calculate p).liquidations + (calculate p).hedging := rfl

/-- C3: for every ScenarioParams, generateMonthlyForecast returns exactly
the 12 points with month fields 1..12 in order, where every point carries
clearing/365, funding/365, liquidations/365, hedging/365 of the calculate
result and total = dailyAvg, so the five numeric fields are identical
across all 12 entries. -/
theorem generateMonthlyForecast_twelve_identical_points (p : ScenarioParams) :
    (generateMonthlyForecast p).length = 12 ∧
    generateMonthlyForecast p =
      (let r := calculate p
       let pt : ℕ → MonthlyForecastPoint := fun m =>
         { month := m
           clearing := r.clearing / 365
           funding := r.funding / 365
           liquidations := r.liquidations / 365
           hedging := r.hedging / 365
           total := r.dailyAvg }
       [pt 1, pt 2, pt 3, pt 4, pt 5, pt 6, pt 7, pt 8, pt 9, pt 10, pt 11, pt 12]) := by
  refine ⟨rfl, ?_⟩
  simp [generateMonthlyForecast, List.range_succ, DAYS_PER_YEAR]

/-- C4: requesting the scenario defaults for any name other than bear,
base or bull fails with the UnknownScenario error and never returns a
default parameter set. -/
theorem getScenarioDefaults_unknown_name_fails (name : String)
    (h1 : name ≠ "bear") (h2 : name ≠ "base") (h3 : name ≠ "bull") :
    getScenarioDefaults name = Except.error "UnknownScenario" := by
  simp [getScenarioDefaults, SCENARIOS, h1, h2, h3]

/-- Witness for C4 at the concrete unknown name "bull2". -/
theorem getScenarioDefaults_unknown_name_fails_witness :
    getScenarioDefaults "bull2" = Except.error "UnknownScenario" :=
  getScenarioDefaults_unknown_name_fails "bull2"
    (by decide) (by decide) (by decide)

/-- C5: preset retrieval has copy semantics: retrieving the base preset
yields the stored default (so two retrievals return equal values), the
spread-copy update of a retrieved copy carries the new field value, and
that updated copy is a different record while the stored default returned
by a fresh retrieval is unchanged. -/
theorem preset_copy_semantics (k : ParamKey) (v : ℚ)
    (h : v ≠ getParam baseDefault k) :
    getScenarioDefaults "base" = Except.ok baseDefault ∧
    getParam (setParam baseDefault k v) k = v ∧
    setParam baseDefault k v ≠ baseDefault := by
  refine ⟨rfl, ?_, ?_⟩
  · cases k <;> rfl
  · intro heq
    apply h
    have := congrArg (fun q => getParam q k) heq
    simpa [show ∀ p, getParam (setParam p k v) k = v from
      fun p => by cases k <;> rfl] using this

/-- Witness for C5: setting dailyVolume of a retrieved base copy to 0. -/
theorem preset_copy_semantics_witness :
    getScenarioDefaults "base" = Except.ok baseDefault ∧
    getParam (setParam baseDefault ParamKey.dailyVolume 0) ParamKey.dailyVolume = 0 ∧
    setParam baseDefault ParamKey.dailyVolume 0 ≠ baseDefault :=
  preset_copy_semantics ParamKey.dailyVolume 0
    (by norm_num [getParam, baseDefault])

/-- C6: calculate never clamps the funding stream: for every
ScenarioParams, funding equals fundingSpread times deployedNotional, and
whenever the spread is negative with a positive deployedNotional the
funding value is negative. -/
theorem funding_unclamped (p : ScenarioParams) :
    (calculate p).funding =
      (calculate p).fundingSpread * (calculate p).deployedNotional ∧
    (p.hlFundingRate / 100 - p.archBorrowRate / 100 - p.frictionCost / 10000 < 0 →
      0 < (calculate p).deployedNotional →
      (calculate p).funding < 0) := by
  refine ⟨rfl, fun hs hN => ?_⟩
  have hspread : (calculate p).fundingSpread < 0 := hs
  exact mul_neg_of_neg_of_pos hspread hN

/-- Witness for C6 at the bear preset, whose funding spread
0.02 - 0.03 - 0.00015 is negative with positive deployed notional. -/
theorem funding_unclamped_witness :
    (calculate bearDefault).funding =
      (calculate bearDefault).fundingSpread * (calculate bearDefault).deployedNotional ∧
    (calculate bearDefault).funding < 0 :=
  ⟨(funding_unclamped bearDefault).1,
   (funding_unclamped bearDefault).2
     (by norm_num [bearDefault])
     (by norm_num [calculate, bearDefault])⟩

/-- C7: doubling equity while holding every other field fixed exactly
doubles deployedNotional and funding. -/
theorem funding_scales_with_equity (p : ScenarioParams) :
    (calculate { p with equity := 2 * p.equity }).deployedNotional
        = 2 * (calculate p).deployedNotional ∧
    (calculate { p with equity := 2 * p.equity }).funding
        = 2 * (calculate p).funding := by
  constructor <;> simp [calculate] <;> ring

/-- C8: for every ScenarioParams, monthlyAvg = total/12 and
dailyAvg = total/365. -/
theorem monthly_daily_averages (p : ScenarioParams) :
    (calculate p).monthlyAvg = (calculate p).total / 12 ∧
    (calculate p).dailyAvg = (calculate p).total / 365 := ⟨rfl, rfl⟩

/-- C9: for every ScenarioParams,
fundingROE = fundingSpread × leverage × 100. -/
theorem fundingROE_formula (p : ScenarioParams) :
    (calculate p).fundingROE = (calculate p).fundingSpread * p.leverage * 100 := rfl

/-- C10: every point of generateMonthlyForecast is internally consistent:
its total field equals the sum of its own clearing, funding, liquidations
and hedging fields. -/
theorem forecast_point_internally_consistent (p : ScenarioParams)
    (q : MonthlyForecastPoint) (hq : q ∈ generateMonthlyForecast p) :
    q.total = q.clearing + q.funding + q.liquidations + q.hedging := by
  simp only [generateMonthlyForecast, List.mem_map, List.mem_range] at hq
  obtain ⟨m, hm, rfl⟩ := hq
  show (calculate p).total / DAYS_PER_YEAR = _
  have hsum : (calculate p).total =
      (calculate p).clearing + (calculate p).funding +
        (calculate p).liquidations + (calculate p).hedging := rfl
  rw [hsum]
  unfold DAYS_PER_YEAR
  ring

/-- Witness for C10: the first forecast point of the base preset. -/
theorem forecast_point_internally_consistent_witness :
    (⟨1, 200000, 43904000 / 365, 2400000 / 365, 10000, 122954000 / 365⟩ :
        MonthlyForecastPoint).total =
      (⟨1, 200000, 43904000 / 365, 2400000 / 365, 10000, 122954000 / 365⟩ :
        MonthlyForecastPoint).clearing +
      (⟨1, 200000, 43904000 / 365, 2400000 / 365, 10000, 122954000 / 365⟩ :
        MonthlyForecastPoint).funding +
      (⟨1, 200000, 43904000 / 365, 2400000 / 365, 10000, 122954000 / 365⟩ :
        MonthlyForecastPoint).liquidations +
      (⟨1, 200000, 43904000 / 365, 2400000 / 365, 10000, 122954000 / 365⟩ :
        MonthlyForecastPoint).hedging :=
  forecast_point_internally_consistent baseDefault _ (by
    simp only [generateMonthlyForecast, List.mem_map, List.mem_range]
    exact ⟨0, by norm_num, by
      norm_num [calculate, baseDefault, DAYS_PER_YEAR, MONTHS_PER_YEAR,
        BPS_PER_UNIT, MonthlyForecastPoint.mk.injEq]⟩)

end BitFrost
